import Mathlib

/-!
Verification of the resume-match evaluator variants in this repository.

The repository contains five near-duplicate implementations of one HTTP
endpoint (src/api/index.py, main.py, evaluate.py, analyze.py,
analyze-resume.py).  Each variant forwards a job description and a resume
to an external text-generation service and normalizes the reply.  This
file gives a shallow embedding of the request handling, score/
recommendation normalization, fallback keyword scoring and e-mail
extraction of those variants, and proves the properties stated about
them.

Modelling conventions:
  - JSON values parsed from the service reply are modelled by `JValue`
    (numbers as rationals, conflating Python int and float; this is
    harmless for the integral scores the claims exercise).
  - Python exceptions are modelled by `Option`/explicit error
    constructors; a `none`/`raised` value means the corresponding Python
    code raises at that point.
  - The single external call of each handler is abstracted by a
    `SvcResult` argument: the call either raised (`failure`, which also
    covers a `None`/empty reply in index.py), returned text that is not
    parsable JSON (`unparsable`), or produced a parsed JSON object
    (`parsed obj`).
-/

/-- JSON-like values as produced by json.loads in the handlers. -/
inductive JValue where
  | jnull : JValue
  | jnum : ℚ → JValue
  | jstr : String → JValue
  | jarr : List JValue → JValue

/-- Lookup in a JSON object (Python dict.get k, modelled on the
association list produced by parsing). -/
def jlookup : List (String × JValue) → String → Option JValue
  | [], _ => none
  | (k, v) :: rest, key => if k == key then some v else jlookup rest key

/-- Python dict assignment d[k] = v: replaces the value in place if the
key exists, otherwise appends the binding (dicts keep insertion order). -/
def jset (obj : List (String × JValue)) (k : String) (v : JValue) :
    List (String × JValue) :=
  if obj.any (fun p => p.1 == k) then
    obj.map (fun p => if p.1 == k then (k, v) else p)
  else obj ++ [(k, v)]

/-- Value of a decimal digit list (most significant first). -/
def digitsVal (ds : List Char) : Nat :=
  ds.foldl (fun n c => n * 10 + (c.toNat - 48)) 0

/-- Parse a nonempty all-digit character list, as used by the models of
the Python int() and float() builtins below. -/
def digitsToNat (ds : List Char) : Option Nat :=
  if ds ≠ [] ∧ ds.all Char.isDigit then some (digitsVal ds) else none

/-- Model of the Python int(string) builtin on plain decimal integer
literals with an optional sign.  Leading and trailing whitespace and
underscore separators are not modelled; none of the code under
verification produces them. -/
def pyIntOfString (s : String) : Option Int :=
  match s.data with
  | '-' :: ds => (digitsToNat ds).map (fun n => -(n : Int))
  | '+' :: ds => (digitsToNat ds).map (fun n => (n : Int))
  | ds => (digitsToNat ds).map (fun n => (n : Int))

/-- Model of the Python float(string) builtin on plain decimal literals
(optional sign, digits, optional fractional part).  Exponents, inf/nan
and whitespace are not modelled; the claims only exercise integral and
non-numeric inputs. -/
def pyFloatOfString (s : String) : Option ℚ :=
  let core : List Char → Option ℚ := fun ds =>
    let ip := ds.takeWhile Char.isDigit
    match ds.drop ip.length with
    | [] => if ip = [] then none else some ((digitsVal ip : ℚ))
    | '.' :: fs =>
        if fs.all Char.isDigit ∧ (ip ≠ [] ∨ fs ≠ []) then
          some ((digitsVal ip : ℚ) + (digitsVal fs : ℚ) / (10 ^ fs.length))
        else none
    | _ => none
  match s.data with
  | '-' :: ds => (core ds).map (fun q => -q)
  | '+' :: ds => core ds
  | ds => core ds

/-- Python round() to an integer: nearest integer, ties to even. -/
def pyRound (q : ℚ) : Int :=
  let f : Int := ⌊q⌋
  let r : ℚ := q - (f : ℚ)
  if r < 1/2 then f
  else if (1/2 : ℚ) < r then f + 1
  else if f % 2 = 0 then f else f + 1

/-- Python round(x, 2): rounding to two decimal places, ties to even.
Floating point representation error is not modelled; the arithmetic is
exact rational arithmetic. -/
def pyRound2 (q : ℚ) : ℚ := (pyRound (q * 100) : ℚ) / 100

/-- Python int() truncation toward zero for a rational. -/
def pyTrunc (q : ℚ) : Int := if 0 ≤ q then ⌊q⌋ else -⌊-q⌋

/-- Model of Python float(x) on a JSON value: numbers convert, numeric
strings parse, everything else (None, lists, non-numeric strings)
raises, modelled as none. -/
def pyFloat : JValue → Option ℚ
  | JValue.jnum q => some q
  | JValue.jstr s => pyFloatOfString s
  | _ => none

/-- Model of Python int(x) on a JSON value: numbers truncate toward
zero, integer-literal strings parse, everything else raises (none). -/
def pyInt : JValue → Option Int
  | JValue.jnum q => some (pyTrunc q)
  | JValue.jstr s => pyIntOfString s
  | _ => none

/-- Outcome of the single external text-generation call made by a
handler, as seen by the code after the call site. -/
inductive SvcResult where
  | failure : SvcResult
  | unparsable : SvcResult
  | parsed : List (String × JValue) → SvcResult

/-- Python str.split() with no argument: split on whitespace runs,
discarding empty pieces. -/
def pySplitWs (s : String) : List String :=
  (s.split Char.isWhitespace).filter (fun x => x ≠ "")

/-- extract_name from evaluate.py lines 9-15 and main.py lines 17-23
(identical in both): the first of the first five stripped lines that has
at most four words and no at-sign, else a fixed placeholder. -/
def extract_name (resume_text : String) : String :=
  let lines := ((resume_text.trim.splitOn "\n").take 5).map String.trim
  match lines.find? (fun line =>
      decide ((pySplitWs line).length ≤ 4) && !(line.contains '@')) with
  | some line => line
  | none => "Unknown Candidate"

/-! ### The e-mail regular expression of evaluate.py / main.py

extract_email searches for the pattern of word, dot and hyphen
characters around an at-sign.  The functions below implement the exact
leftmost-greedy search semantics of the Python re module for this fixed
pattern; see the lemmas further down. -/

/-- ASCII model of the regex word class used as backslash-w. -/
def charW (c : Char) : Bool := c.isAlphanum || c = '_'

/-- The bracketed class of the e-mail pattern: word chars, dot, hyphen. -/
def charA (c : Char) : Bool := charW c || c = '.' || c = '-'

/-- Word boundary test of the re module at position k of t: exactly one
of the characters around the position is a word character (positions
outside the text count as non-word). -/
def boundary (t : List Char) (k : Nat) : Bool :=
  (if k = 0 then false else charW (t.getD (k - 1) ' ')) != charW (t.getD k ' ')

/-- Candidate backtracking positions for the literal dot of the pattern
inside the greedy run r after the at-sign: positions j with at least one
class character before them, a dot at j, and a word character right
after. -/
def dotOK (r : List Char) (j : Nat) : Bool :=
  decide (1 ≤ j) && decide (r.getD j ' ' = '.') && charW (r.getD (j + 1) ' ')

/-- Greedy match of the e-mail pattern anchored at the start of s,
returning the matched characters.  The first plus-quantifier is forced
to its maximal run because the at-sign is outside the class; for the
second, the regex engine backtracks from the longest run, which selects
the last dot position that still leaves a word character, and the final
word run is maximal. -/
def tryMatch (s : List Char) : Option (List Char) :=
  let a := s.takeWhile charA
  if a.isEmpty then none
  else
    match s.drop a.length with
    | '@' :: rest =>
        let r := rest.takeWhile charA
        match ((List.range r.length).filter (dotOK r)).getLast? with
        | some j =>
            some (a ++ '@' :: (r.take (j + 1) ++ (r.drop (j + 1)).takeWhile charW))
        | none => none
    | _ => none

/-- re.search: try the anchored match at each start position from the
left, returning the first success. -/
def searchEmail : List Char → Option (List Char)
  | [] => none
  | c :: cs =>
      match tryMatch (c :: cs) with
      | some m => some m
      | none => searchEmail cs

/-- extract_email from evaluate.py lines 18-20 and main.py lines 26-28
(identical in both): the leftmost greedy match of the e-mail pattern,
or the empty string when there is no match. -/
def extract_email (resume_text : String) : String :=
  match searchEmail resume_text.data with
  | some m => String.mk m
  | none => ""

/-- A character list is a full match of the e-mail pattern: class
characters, an at-sign, class characters, a dot, word characters, each
group nonempty. -/
def matchesEmail (m : List Char) : Prop :=
  ∃ a b c : List Char,
    m = a ++ '@' :: (b ++ '.' :: c) ∧
    a ≠ [] ∧ b ≠ [] ∧ c ≠ [] ∧
    (∀ x ∈ a, charA x = true) ∧ (∀ x ∈ b, charA x = true) ∧
    (∀ x ∈ c, charW x = true)

/-- Some substring of l starting at position i matches the pattern. -/
def emailMatchAt (l : List Char) (i : Nat) : Prop :=
  ∃ m, matchesEmail m ∧ m <+: l.drop i

/-! ### evaluate.py -/

/-- Success payload of evaluate.py lines 85-94 (and the identical dict
of main.py lines 87-96).  Fields taken verbatim from the parsed service
reply stay JSON values; Score is coerced with int() and Recommendation
is recomputed locally. -/
structure EvResult where
  score : Int
  role : JValue
  skillsetMatch : JValue
  missingSkills : JValue
  summary : JValue
  recommendation : String
  name : String
  email : String

/-- Response of the evaluate.py handler / main.py route: a success
payload or an error with the HTTP status code the code attaches. -/
inductive HandlerResponse where
  | ok : EvResult → HandlerResponse
  | err : Nat → HandlerResponse

namespace EvaluatePy

/-- decide_recommendation, evaluate.py lines 23-29. -/
def decide_recommendation (score : Int) : String :=
  if score ≥ 75 then "Shortlist"
  else if score ≥ 50 then "Consider"
  else "Reject"

/-- Score coercion of evaluate.py line 83: int(parsed.get("Score", 0)).
No clamping; none models the ValueError/TypeError raised on non-numeric
values, which the outer handler turns into a 500 error. -/
def parse_score (obj : List (String × JValue)) : Option Int :=
  pyInt ((jlookup obj "Score").getD (JValue.jnum 0))

/-- parsed.get(key, "") used for the passthrough fields of evaluate.py
lines 87-90: a missing key becomes the empty string, but a present key
is passed through unchanged, including a JSON null. -/
def getField (obj : List (String × JValue)) (k : String) : JValue :=
  (jlookup obj k).getD (JValue.jstr "")

/-- Summary field of the evaluate.py result, line 90. -/
def summary_field (obj : List (String × JValue)) : JValue :=
  getField obj "Summary"

/-- handler, evaluate.py lines 32-105, for a POST request whose JSON
body carries string fields jd and resume.  The external call is
abstracted by svc; every exception inside the try block (failed call,
unparsable reply, non-numeric Score) reaches the bare except and
becomes a 500 error response. -/
def handler (jd resume : String) (svc : SvcResult) : HandlerResponse :=
  if jd = "" ∨ resume = "" then HandlerResponse.err 400
  else
    let name := extract_name resume
    let email := extract_email resume
    match svc with
    | SvcResult.failure => HandlerResponse.err 500
    | SvcResult.unparsable => HandlerResponse.err 500
    | SvcResult.parsed obj =>
        match parse_score obj with
        | none => HandlerResponse.err 500
        | some score =>
            HandlerResponse.ok
              { score := score
                role := getField obj "Role"
                skillsetMatch := getField obj "MatchedSkills"
                missingSkills := getField obj "MissingSkills"
                summary := summary_field obj
                recommendation := decide_recommendation score
                name := name
                email := email }

end EvaluatePy

/-- Literal text of the prompt built by evaluate.py lines 55-70 and
main.py lines 57-72 (identical in both files), up to the interpolated
job description. -/
def promptHeader : String :=
  "\nReturn STRICT JSON:\n\x7b\n  \"Score\": integer,\n  \"Role\": string,\n  \"MatchedSkills\": string,\n  \"MissingSkills\": string,\n  \"Summary\": string\n\x7d\n\nJob Description:\n"

/-- Literal prompt text between the job description and the resume. -/
def promptMid : String := "\n\nResume:\n"

/-- Literal prompt text after the resume. -/
def promptTail : String := "\n"

/-- The full prompt of evaluate.py lines 55-70 / main.py lines 57-72:
the f-string interpolates the raw jd and resume with no truncation. -/
def evalPrompt (jd resume : String) : String :=
  promptHeader ++ jd ++ promptMid ++ resume ++ promptTail

namespace MainPy

/-- decide_recommendation, main.py lines 31-37. -/
def decide_recommendation (score : Int) : String :=
  if score ≥ 75 then "Shortlist"
  else if score ≥ 50 then "Consider"
  else "Reject"

/-- Score coercion of main.py line 85, identical to evaluate.py. -/
def parse_score (obj : List (String × JValue)) : Option Int :=
  pyInt ((jlookup obj "Score").getD (JValue.jnum 0))

/-- evaluate, main.py lines 40-102: same control flow as the evaluate.py
handler; validation errors return a 400 JSONResponse, any exception in
the try block (failed call, unparsable reply, non-numeric Score)
returns a 500 JSONResponse. -/
def evaluate (jd resume : String) (svc : SvcResult) : HandlerResponse :=
  if jd = "" ∨ resume = "" then HandlerResponse.err 400
  else
    let name := extract_name resume
    let email := extract_email resume
    match svc with
    | SvcResult.failure => HandlerResponse.err 500
    | SvcResult.unparsable => HandlerResponse.err 500
    | SvcResult.parsed obj =>
        match parse_score obj with
        | none => HandlerResponse.err 500
        | some score =>
            HandlerResponse.ok
              { score := score
                role := (jlookup obj "Role").getD (JValue.jstr "")
                skillsetMatch := (jlookup obj "MatchedSkills").getD (JValue.jstr "")
                missingSkills := (jlookup obj "MissingSkills").getD (JValue.jstr "")
                summary := (jlookup obj "Summary").getD (JValue.jstr "")
                recommendation := decide_recommendation score
                name := name
                email := email }

end MainPy

namespace AnrPy

/-! analyze-resume.py.  The endpoint has no input validation beyond the
pydantic field types (empty strings are accepted), no try/except, and
jd/resume are used only inside the prompt sent to the service. -/

/-- Score normalization of analyze-resume.py line 90:
max(0, min(100, int(result.get("Score", 0)))).  none models the
exception raised by int() on non-numeric values, which propagates out
of the endpoint. -/
def score (obj : List (String × JValue)) : Option Int :=
  (pyInt ((jlookup obj "Score").getD (JValue.jnum 0))).map
    (fun n => max 0 (min 100 n))

/-- Recommendation normalization of analyze-resume.py lines 92-93: any
value other than the two enum strings collapses to "Reject",
irrespective of the score. -/
def recommendation (obj : List (String × JValue)) : String :=
  match jlookup obj "Recommendation" with
  | some (JValue.jstr s) => if s = "Shortlist" || s = "Reject" then s else "Reject"
  | _ => "Reject"

/-- analyze_resume, analyze-resume.py lines 32-95.  jd and resume are
interpolated into the prompt only; there is no emptiness check, so the
external call happens for empty inputs too.  none models an exception
escaping the endpoint (service failure, unparsable JSON, non-numeric
Score), which the framework surfaces as a 500 error. -/
def analyze_resume (_jd _resume : String) (svc : SvcResult) :
    Option (List (String × JValue)) :=
  match svc with
  | SvcResult.failure => none
  | SvcResult.unparsable => none
  | SvcResult.parsed obj =>
      match score obj with
      | none => none
      | some sc =>
          some (jset (jset obj "Score" (JValue.jnum sc))
            "Recommendation" (JValue.jstr (recommendation obj)))

end AnrPy

namespace AnalyzePy

/-- Result shape of analyze.py default_response(), lines 25-33. -/
structure AnalyzeResult where
  score : Int
  skillsetMatch : String
  summary : String
  recommendation : String
  name : String
  email : String

/-- default_response, analyze.py lines 25-33. -/
def default_response : AnalyzeResult :=
  { score := 0, skillsetMatch := "", summary := "", recommendation := "Reject",
    name := "", email := "" }

/-- analyze_resume, analyze.py lines 36-99.  For every outcome of the
external call the endpoint returns default_response(): on a failed call
the outer except fires directly; on a successful call line 77 binds
result to the reply STRING, so the dict subscripting in lines 82-93
raises TypeError (and the inner bare except re-raises by assigning into
the string again), which the outer except also turns into
default_response().  The jd, resume and service reply therefore never
influence the returned value. -/
def analyze_resume (_jd _resume : String) (_svc : SvcResult) : AnalyzeResult :=
  default_response

end AnalyzePy

/-! ### index.py -/

/-- Result dict shape of the index.py endpoint (both the fallback dict
of lines 176-184 and the normalized GPT dict of lines 198-234).  The
score is rational because the fallback path produces a two-decimal
float; Name and Email are passed through as JSON values. -/
structure IndexResult where
  score : ℚ
  skillsetMatch : String
  missingSkills : String
  summary : String
  recommendation : String
  name : JValue
  email : JValue

/-- Outcome of the index.py endpoint: a JSON result, the error dict
returned when the API key is unset, or an exception escaping the
endpoint (only possible while normalizing a parsed reply). -/
inductive IndexOutcome where
  | ok : IndexResult → IndexOutcome
  | errorResp : String → IndexOutcome
  | raised : IndexOutcome

namespace IndexPy

/-- default_response, index.py lines 40-49. -/
def default_response : IndexResult :=
  { score := 0, skillsetMatch := "", missingSkills := "", summary := "",
    recommendation := "", name := JValue.jstr "", email := JValue.jstr "" }

/-- score_benchmarks, index.py lines 69-74, in dict insertion order. -/
def score_benchmarks : List (String × ℚ × ℚ) :=
  [("Strong Shortlist", 85, 100), ("Shortlist", 70, 84),
   ("Borderline", 50, 69), ("Reject", 0, 49)]

/-- The for-loop of decide_recommendation: first benchmark band whose
bounds enclose the score. -/
def bench_lookup : List (String × ℚ × ℚ) → ℚ → Option String
  | [], _ => none
  | (d, lo, hi) :: rest, s =>
      if lo ≤ s ∧ s ≤ hi then some d else bench_lookup rest s

/-- decide_recommendation, index.py lines 76-80: every band except
"Reject" maps to "Shortlist"; a score in no band (for example a
fractional score between bands) falls through to "Reject". -/
def decide_recommendation (score : ℚ) : String :=
  match bench_lookup score_benchmarks score with
  | some d => if d = "Reject" then "Reject" else "Shortlist"
  | none => "Reject"

/-- format_summary_html, index.py lines 85-92. -/
def format_summary_html (matched missing : List String)
    (reasoning : String) : String :=
  let matchedHtml := String.join (matched.map (fun s =>
    "• <span style=\x27color:green\x27>" ++ s ++ "</span><br>"))
  let missingHtml := String.join (missing.map (fun s =>
    "• <span style=\x27color:red\x27>" ++ s ++ "</span><br>"))
  let s1 := "<b>Matched Skills:</b><br>" ++
    (if matchedHtml = "" then "None<br>" else matchedHtml)
  let s2 := s1 ++ "<b>Missing Skills:</b><br>" ++
    (if missingHtml = "" then "None<br>" else missingHtml)
  if reasoning ≠ "" then s2 ++ "<b>Reasoning:</b><br>" ++ reasoning else s2

/-- common_skills, index.py lines 139-141. -/
def common_skills : List String :=
  ["Python", "Java", "C++", "Machine Learning", "AI", "FastAPI", "DevOps",
   "Generative AI", "Agentic AI", "Sales experience",
   "Understanding client needs", "Communicating product value",
   "Building sales pipelines", "Nurturing leads", "Closing deals"]

/-- ASCII lowercasing of one character, the effect of the IGNORECASE
flag on the ASCII skill vocabulary. -/
def lowerChar (c : Char) : Char :=
  if 'A' ≤ c ∧ c ≤ 'Z' then Char.ofNat (c.toNat + 32) else c

/-- Whole-word case-insensitive occurrence test: the semantics of
re.search with the escaped skill between two word-boundary anchors and
the IGNORECASE flag (index.py line 142).  Both strings are lowercased
(the ASCII model of IGNORECASE) and the escaped skill is a literal, so
the test is: the skill occurs at some position with a word boundary at
both ends. -/
def occursWord (skill text : String) : Bool :=
  let p := skill.data.map lowerChar
  let t := text.data.map lowerChar
  (List.range t.length).any (fun i =>
    decide (p ≠ []) && decide ((t.drop i).take p.length = p) &&
    boundary t i && boundary t (i + p.length))

/-- fallback_skills, index.py lines 138-142. -/
def fallback_skills (text : String) : List String :=
  common_skills.filter (fun s => occursWord s text)

/-- matching list of the fallback path, index.py line 171. -/
def fallback_matching (jd_text resume_text : String) : List String :=
  (fallback_skills resume_text).filter
    (fun s => decide (s ∈ fallback_skills jd_text))

/-- missing list of the fallback path, index.py line 172. -/
def fallback_missing (jd_text resume_text : String) : List String :=
  (fallback_skills jd_text).filter
    (fun s => !decide (s ∈ fallback_skills resume_text))

/-- Fallback result of index.py lines 167-184: keyword overlap scoring
with score = round((len(matching)/max(1,len(jd_skills)))*100, 2). -/
def fallback (jd_text resume_text : String) : IndexResult :=
  let jd_skills := fallback_skills jd_text
  let matching := fallback_matching jd_text resume_text
  let missing := fallback_missing jd_text resume_text
  let score : ℚ :=
    pyRound2 (((matching.length : ℚ) / (max 1 jd_skills.length : ℚ)) * 100)
  { score := score
    skillsetMatch := String.intercalate ", " matching
    missingSkills := String.intercalate ", " missing
    summary := format_summary_html matching missing
      "Fallback: GPT unavailable, basic skill matching used."
    recommendation := decide_recommendation score
    name := JValue.jstr ""
    email := JValue.jstr "" }

/-- Field fill of index.py lines 199-201: a missing or null field
becomes 0 for Score and the empty string otherwise. -/
def field (obj : List (String × JValue)) (k : String) : JValue :=
  match jlookup obj k with
  | none => if k = "Score" then JValue.jnum 0 else JValue.jstr ""
  | some JValue.jnull => if k = "Score" then JValue.jnum 0 else JValue.jstr ""
  | some v => v

/-- Score normalization of index.py lines 223-226:
max(0, min(100, round(float(result.get("Score", 0))))) with a bare
except mapping any conversion error to 0. -/
def score (obj : List (String × JValue)) : Int :=
  match pyFloat (field obj "Score") with
  | some q => max 0 (min 100 (pyRound q))
  | none => 0

/-- Recommendation normalization of index.py lines 227-228: a service
value outside the two enum strings is replaced by
decide_recommendation applied to the already-normalized score. -/
def recommendation (obj : List (String × JValue)) : String :=
  match field obj "Recommendation" with
  | JValue.jstr s =>
      if s = "Shortlist" || s = "Reject" then s
      else decide_recommendation ((score obj : Int) : ℚ)
  | _ => decide_recommendation ((score obj : Int) : ℚ)

/-- Python str.split(",") with strip and empty filtering, as in
index.py lines 208 and 215. -/
def split_skills (s : String) : List String :=
  ((s.splitOn ",").map String.trim).filter (fun x => x ≠ "")

/-- All elements of a JSON array as strings; none when some element is
not a string, in which case the ", ".join of index.py raises. -/
def jlistStrings : List JValue → Option (List String)
  | [] => some []
  | JValue.jstr s :: rest => (jlistStrings rest).map (fun ss => s :: ss)
  | _ => none

/-- Decimal representation of a number for the str() call in index.py
lines 208/215.  Only integral values (the realistic case after JSON
parsing) are represented exactly; the representation of non-integral
floats is approximated by the rational printer, which no claim
exercises. -/
def pyStrNum (q : ℚ) : String :=
  if q.den = 1 then toString q.num else toString q

/-- The skills-field conversion of index.py lines 204-216, producing
the matched/missing list used by the summary and the comma-joined
string stored in the result.  A list with a non-string element makes
", ".join raise (none). -/
def skillField : JValue → Option (List String × String)
  | JValue.jarr xs =>
      (jlistStrings xs).map (fun ss => (ss, String.intercalate ", " ss))
  | JValue.jstr s =>
      some (split_skills s, String.intercalate ", " (split_skills s))
  | JValue.jnull =>
      some (split_skills "None", String.intercalate ", " (split_skills "None"))
  | JValue.jnum q =>
      some (split_skills (pyStrNum q),
        String.intercalate ", " (split_skills (pyStrNum q)))

/-- Truthiness-and-type handling of reasoning_text in index.py lines
219-220 combined with the string concatenation inside
format_summary_html: none means a TypeError is raised (truthy
non-string value concatenated to a string); some none means the value
is falsy and the reasoning block is skipped; some (some s) appends s. -/
def reasoningVal : JValue → Option (Option String)
  | JValue.jstr s => some (some s)
  | JValue.jnull => some none
  | JValue.jnum q => if q = 0 then some none else none
  | JValue.jarr [] => some none
  | JValue.jarr (_ :: _) => none

/-- Normalization of a parsed service reply, index.py lines 198-234. -/
def success (obj : List (String × JValue)) : IndexOutcome :=
  match skillField (field obj "SkillsetMatch"),
        skillField (field obj "MissingSkills") with
  | some (matched, matchedStr), some (missing, missingStr) =>
      match reasoningVal (field obj "Summary") with
      | none => IndexOutcome.raised
      | some reasoning =>
          IndexOutcome.ok
            { score := ((score obj : Int) : ℚ)
              skillsetMatch := matchedStr
              missingSkills := missingStr
              summary := format_summary_html matched missing (reasoning.getD "")
              recommendation := recommendation obj
              name := field obj "Name"
              email := field obj "Email" }
  | _, _ => IndexOutcome.raised

/-- Truncation of index.py lines 152-153: jd and resume are cut to
their first 1000 characters before any further use (Python slicing by
code points). -/
def gpt_args (jd resume : String) : String × String :=
  (String.mk (jd.data.take 1000), String.mk (resume.data.take 1000))

/-- analyze_resume, index.py lines 147-234.  A failed or empty GPT call
takes the fallback path on the truncated inputs; a reply without
parsable JSON returns default_response(); a parsed reply is
normalized.  There is no emptiness validation of jd or resume. -/
def analyze (apiKeySet : Bool) (jd resume : String) (svc : SvcResult) :
    IndexOutcome :=
  if !apiKeySet then IndexOutcome.errorResp "OPENAI_API_KEY is not set."
  else
    let args := gpt_args jd resume
    match svc with
    | SvcResult.failure => IndexOutcome.ok (fallback args.1 args.2)
    | SvcResult.unparsable => IndexOutcome.ok default_response
    | SvcResult.parsed obj => success obj

/-- The endpoint produced a normal (HTTP 200) JSON evaluation. -/
def isOk : IndexOutcome → Bool
  | IndexOutcome.ok _ => true
  | _ => false

end IndexPy

/-! ### Spec-side definitions

For the fallback-scoring claim the sets described by the specification
text are written out separately, to be compared with the lists the code
computes. -/

/-- Spec-side matched set: the fixed-vocabulary skills found in both
the job description and the resume. -/
def specMatched (jd_text resume_text : String) : List String :=
  IndexPy.common_skills.filter
    (fun s => IndexPy.occursWord s jd_text && IndexPy.occursWord s resume_text)

/-- Spec-side missing set: the fixed-vocabulary skills found in the job
description but not in the resume. -/
def specMissing (jd_text resume_text : String) : List String :=
  IndexPy.common_skills.filter
    (fun s => IndexPy.occursWord s jd_text && !IndexPy.occursWord s resume_text)

/-! ### Helper lemmas -/

/-- The index.py decide_recommendation helper only ever produces the
two binary enum values. -/
theorem IndexPy.decide_recommendation_enum (q : ℚ) :
    IndexPy.decide_recommendation q = "Shortlist" ∨
    IndexPy.decide_recommendation q = "Reject" := by
  simp only [IndexPy.decide_recommendation, IndexPy.score_benchmarks,
    IndexPy.bench_lookup]
  split_ifs <;> simp

/-- The index.py recommendation normalization only ever produces the
two binary enum values. -/
theorem IndexPy.recommendation_enum (obj : List (String × JValue)) :
    IndexPy.recommendation obj = "Shortlist" ∨
    IndexPy.recommendation obj = "Reject" := by
  unfold IndexPy.recommendation
  rcases h : IndexPy.field obj "Recommendation" with _ | q | s | xs
  · exact IndexPy.decide_recommendation_enum _
  · exact IndexPy.decide_recommendation_enum _
  · by_cases hs : s = "Shortlist" || s = "Reject"
    · rcases Bool.or_eq_true_iff.mp hs with h1 | h1
      · left; simp [hs, of_decide_eq_true h1]
      · right; simp [hs, of_decide_eq_true h1]
    · simp only [hs, if_false]
      exact IndexPy.decide_recommendation_enum _
  · exact IndexPy.decide_recommendation_enum _

/-- The index.py normalized score is clamped into the interval. -/
theorem IndexPy.score_bounds (obj : List (String × JValue)) :
    0 ≤ IndexPy.score obj ∧ IndexPy.score obj ≤ 100 := by
  unfold IndexPy.score
  rcases pyFloat (IndexPy.field obj "Score") with _ | q
  · exact ⟨le_refl 0, by norm_num⟩
  · refine ⟨le_max_left 0 _, max_le (by norm_num) ?_⟩
    exact min_le_left 100 _

/-- Closed form of the benchmark loop of index.py decide_recommendation:
the four bands collapse to three Shortlist bands and a default of
"Reject". -/
theorem IndexPy.bench_eval (q : ℚ) :
    IndexPy.decide_recommendation q =
      if 85 ≤ q ∧ q ≤ 100 then "Shortlist"
      else if 70 ≤ q ∧ q ≤ 84 then "Shortlist"
      else if 50 ≤ q ∧ q ≤ 69 then "Shortlist"
      else "Reject" := by
  unfold IndexPy.decide_recommendation IndexPy.score_benchmarks
  simp only [IndexPy.bench_lookup]
  split_ifs <;> rfl

/-! ### Claim theorems -/

/-- C1: amended.  In index.py the normalized score is clamped into
[0,100] and the three spec examples hold (150 becomes 100, -10 becomes
0, a non-numeric "abc" becomes 0); in evaluate.py and main.py the
service score is converted with a bare int() and not clamped (150 stays
150), and a non-numeric score raises instead of becoming 0, which the
handler surfaces as a 500 error. -/
theorem c1_score_clamping :
    (∀ obj : List (String × JValue),
        0 ≤ IndexPy.score obj ∧ IndexPy.score obj ≤ 100)
  ∧ IndexPy.score [("Score", JValue.jnum 150)] = 100
  ∧ IndexPy.score [("Score", JValue.jnum (-10))] = 0
  ∧ IndexPy.score [("Score", JValue.jstr "abc")] = 0
  ∧ EvaluatePy.parse_score [("Score", JValue.jnum 150)] = some 150
  ∧ EvaluatePy.parse_score [("Score", JValue.jstr "abc")] = none
  ∧ MainPy.parse_score [("Score", JValue.jnum 150)] = some 150 := by
  refine ⟨IndexPy.score_bounds, ?_, ?_, ?_, rfl, rfl, rfl⟩
  · norm_num [IndexPy.score, IndexPy.field, jlookup, pyFloat, pyRound]
  · norm_num [IndexPy.score, IndexPy.field, jlookup, pyFloat, pyRound]
  · simp [IndexPy.score, IndexPy.field, jlookup,
      show pyFloat (JValue.jstr "abc") = none from rfl]

/-- C1: counterexample.  A service reply with Score 150 is not clamped
to 100 by the evaluate.py handler: int() passes 150 through. -/
theorem c1_counterexample :
    EvaluatePy.parse_score [("Score", JValue.jnum 150)] = some 150 ∧
    (some (150 : Int) : Option Int) ≠ some (100 : Int) :=
  ⟨rfl, by simp⟩

/-- C2: for every score and every parsed service reply, the
recommendation each variant returns lies in its allowed enum
(Shortlist/Reject in index.py and analyze-resume.py; the three-tier
Shortlist/Consider/Reject in evaluate.py and main.py); a service value
outside the enum is never passed through. -/
theorem c2_recommendation_enum (s : Int) (q : ℚ)
    (obj : List (String × JValue)) :
    (EvaluatePy.decide_recommendation s = "Shortlist" ∨
     EvaluatePy.decide_recommendation s = "Consider" ∨
     EvaluatePy.decide_recommendation s = "Reject")
  ∧ (MainPy.decide_recommendation s = "Shortlist" ∨
     MainPy.decide_recommendation s = "Consider" ∨
     MainPy.decide_recommendation s = "Reject")
  ∧ (IndexPy.decide_recommendation q = "Shortlist" ∨
     IndexPy.decide_recommendation q = "Reject")
  ∧ (IndexPy.recommendation obj = "Shortlist" ∨
     IndexPy.recommendation obj = "Reject")
  ∧ (AnrPy.recommendation obj = "Shortlist" ∨
     AnrPy.recommendation obj = "Reject") := by
  refine ⟨?_, ?_, IndexPy.decide_recommendation_enum q,
    IndexPy.recommendation_enum obj, ?_⟩
  · unfold EvaluatePy.decide_recommendation
    split_ifs <;> simp
  · unfold MainPy.decide_recommendation
    split_ifs <;> simp
  · unfold AnrPy.recommendation
    rcases h : jlookup obj "Recommendation" with _ | v
    · exact Or.inr rfl
    · rcases v with _ | q' | s' | xs
      · exact Or.inr rfl
      · exact Or.inr rfl
      · dsimp only
        split_ifs with hb
        · rcases Bool.or_eq_true_iff.mp hb with h1 | h1
          · left; exact of_decide_eq_true h1
          · right; exact of_decide_eq_true h1
        · exact Or.inr rfl
      · exact Or.inr rfl

/-- C3: amended.  For nonempty inputs, index.py absorbs every
external-service failure into a successful degraded response (the
keyword fallback when the call fails, default_response when the reply
is unparsable); but evaluate.py and main.py propagate the same failures
to the caller as a 500 error response, with no fallback path. -/
theorem c3_error_absorption (jd resume : String) (h1 : jd ≠ "") (h2 : resume ≠ "") :
    IndexPy.isOk (IndexPy.analyze true jd resume SvcResult.failure) = true
  ∧ IndexPy.isOk (IndexPy.analyze true jd resume SvcResult.unparsable) = true
  ∧ EvaluatePy.handler jd resume SvcResult.failure = HandlerResponse.err 500
  ∧ EvaluatePy.handler jd resume SvcResult.unparsable = HandlerResponse.err 500
  ∧ MainPy.evaluate jd resume SvcResult.failure = HandlerResponse.err 500 := by
  have hv : ¬ (jd = "" ∨ resume = "") := by tauto
  refine ⟨rfl, rfl, ?_, ?_, ?_⟩ <;>
    simp [EvaluatePy.handler, MainPy.evaluate, hv]

/-- C3: witness for the amended theorem at concrete nonempty inputs. -/
theorem c3_error_absorption_witness :
    ("j" : String) ≠ "" ∧ ("r" : String) ≠ ""
  ∧ (IndexPy.isOk (IndexPy.analyze true "j" "r" SvcResult.failure) = true
  ∧ IndexPy.isOk (IndexPy.analyze true "j" "r" SvcResult.unparsable) = true
  ∧ EvaluatePy.handler "j" "r" SvcResult.failure = HandlerResponse.err 500
  ∧ EvaluatePy.handler "j" "r" SvcResult.unparsable = HandlerResponse.err 500
  ∧ MainPy.evaluate "j" "r" SvcResult.failure = HandlerResponse.err 500) :=
  ⟨by decide, by decide, c3_error_absorption "j" "r" (by decide) (by decide)⟩

/-- C3: counterexample.  With nonempty inputs and a failed external
call, the evaluate.py handler returns a 500 error to the caller instead
of a degraded successful result. -/
theorem c3_counterexample :
    EvaluatePy.handler "jd" "resume" SvcResult.failure = HandlerResponse.err 500 := by
  simp [EvaluatePy.handler]

/-- C4: amended.  The recommendation rules are pure score thresholds
but not the claimed binary 75-rule: evaluate.py and main.py use the
three-tier rule (at least 75 Shortlist, 50 to 74 Consider, under 50
Reject), while the index.py benchmark table maps every integer score of
at least 50 to Shortlist and anything below 50 to Reject. -/
theorem c4_threshold (s : ℤ) (h0 : 0 ≤ s) (h1 : s ≤ 100) :
    (EvaluatePy.decide_recommendation s = "Shortlist" ↔ 75 ≤ s)
  ∧ (MainPy.decide_recommendation s = "Consider" ↔ 50 ≤ s ∧ s < 75)
  ∧ (MainPy.decide_recommendation s = "Reject" ↔ s < 50)
  ∧ (IndexPy.decide_recommendation (s : ℚ) = "Shortlist" ↔ 50 ≤ s)
  ∧ (IndexPy.decide_recommendation (s : ℚ) = "Reject" ↔ s < 50) := by
  have e1 : ((85:ℚ) ≤ (s:ℚ) ∧ (s:ℚ) ≤ 100) ↔ (85 ≤ s ∧ s ≤ 100) := by
    constructor <;> intro h <;> exact ⟨by exact_mod_cast h.1, by exact_mod_cast h.2⟩
  have e2 : ((70:ℚ) ≤ (s:ℚ) ∧ (s:ℚ) ≤ 84) ↔ (70 ≤ s ∧ s ≤ 84) := by
    constructor <;> intro h <;> exact ⟨by exact_mod_cast h.1, by exact_mod_cast h.2⟩
  have e3 : ((50:ℚ) ≤ (s:ℚ) ∧ (s:ℚ) ≤ 69) ↔ (50 ≤ s ∧ s ≤ 69) := by
    constructor <;> intro h <;> exact ⟨by exact_mod_cast h.1, by exact_mod_cast h.2⟩
  refine ⟨?_, ?_, ?_, ?_, ?_⟩
  · unfold EvaluatePy.decide_recommendation
    split_ifs with a b <;> simp <;> omega
  · unfold MainPy.decide_recommendation
    split_ifs with a b <;> simp <;> omega
  · unfold MainPy.decide_recommendation
    split_ifs with a b <;> simp <;> omega
  · rw [IndexPy.bench_eval]
    simp only [e1, e2, e3]
    split_ifs with a b c <;> simp <;> omega
  · rw [IndexPy.bench_eval]
    simp only [e1, e2, e3]
    split_ifs with a b c <;> simp <;> omega

/-- C4: witness for the amended theorem at score 60. -/
theorem c4_threshold_witness :
    (0 ≤ (60:ℤ)) ∧ ((60:ℤ) ≤ 100)
  ∧ ((EvaluatePy.decide_recommendation 60 = "Shortlist" ↔ 75 ≤ (60:ℤ))
  ∧ (MainPy.decide_recommendation 60 = "Consider" ↔ 50 ≤ (60:ℤ) ∧ (60:ℤ) < 75)
  ∧ (MainPy.decide_recommendation 60 = "Reject" ↔ (60:ℤ) < 50)
  ∧ (IndexPy.decide_recommendation ((60:ℤ) : ℚ) = "Shortlist" ↔ 50 ≤ (60:ℤ))
  ∧ (IndexPy.decide_recommendation ((60:ℤ) : ℚ) = "Reject" ↔ (60:ℤ) < 50)) :=
  ⟨by decide, by decide, c4_threshold 60 (by decide) (by decide)⟩

/-- C4: counterexample.  At score 60 the claimed binary rule demands
"Reject", but main.py (and evaluate.py) return "Consider" and index.py
returns "Shortlist". -/
theorem c4_counterexample :
    MainPy.decide_recommendation 60 = "Consider"
  ∧ EvaluatePy.decide_recommendation 60 = "Consider"
  ∧ IndexPy.decide_recommendation 60 = "Shortlist"
  ∧ ("Consider" : String) ≠ "Reject" := by
  refine ⟨rfl, rfl, ?_, by decide⟩
  rw [IndexPy.bench_eval]
  norm_num

/-- C5: amended.  For a service reply with Score 80 and Recommendation
"Maybe", index.py indeed forces the recommendation to "Shortlist" via
its score rule; but analyze-resume.py (like analyze.py) collapses the
out-of-enum value to "Reject" regardless of the score of 80. -/
theorem c5_score80_maybe :
    IndexPy.score [("Score", JValue.jnum 80), ("Recommendation", JValue.jstr "Maybe")] = 80
  ∧ IndexPy.recommendation
      [("Score", JValue.jnum 80), ("Recommendation", JValue.jstr "Maybe")] = "Shortlist"
  ∧ AnrPy.recommendation
      [("Score", JValue.jnum 80), ("Recommendation", JValue.jstr "Maybe")] = "Reject" := by
  have hsc : IndexPy.score
      [("Score", JValue.jnum 80), ("Recommendation", JValue.jstr "Maybe")] = 80 := by
    norm_num [IndexPy.score, IndexPy.field, jlookup, pyFloat, pyRound]
  refine ⟨hsc, ?_, rfl⟩
  have hf : IndexPy.field [("Score", JValue.jnum 80), ("Recommendation", JValue.jstr "Maybe")]
      "Recommendation" = JValue.jstr "Maybe" := rfl
  rw [IndexPy.recommendation, hf]
  dsimp only
  rw [if_neg (by decide), hsc, IndexPy.bench_eval]
  norm_num

/-- C5: counterexample.  analyze-resume.py maps the Score 80 /
Recommendation "Maybe" reply to "Reject", not to the "Shortlist" the
claim requires. -/
theorem c5_counterexample :
    AnrPy.recommendation
      [("Score", JValue.jnum 80), ("Recommendation", JValue.jstr "Maybe")] = "Reject"
  ∧ ("Reject" : String) ≠ "Shortlist" :=
  ⟨rfl, by decide⟩

/-- C6: amended.  On the fallback path, matched and missing are exactly
the spec-side sets (fixed-vocabulary skills occurring in both texts,
and in the job description but not the resume), and the score is
round(100 x matched / max(1, jdSkills), 2) - rounded to TWO decimal
places, not to an integer as the claim states. -/
theorem c6_fallback_spec (jd_text resume_text : String) :
    IndexPy.fallback_matching jd_text resume_text = specMatched jd_text resume_text
  ∧ IndexPy.fallback_missing jd_text resume_text = specMissing jd_text resume_text
  ∧ (IndexPy.fallback jd_text resume_text).score =
      pyRound2 (((specMatched jd_text resume_text).length : ℚ) * 100 /
        (max 1 (IndexPy.fallback_skills jd_text).length : ℚ)) := by
  have hmem : ∀ (a : String) (t : String), a ∈ IndexPy.common_skills →
      (decide (a ∈ List.filter (fun s => IndexPy.occursWord s t) IndexPy.common_skills))
        = IndexPy.occursWord a t := by
    intro a t ha
    by_cases h1 : IndexPy.occursWord a t = true
    · simp [List.mem_filter, ha, h1]
    · simp only [Bool.not_eq_true] at h1
      simp [List.mem_filter, ha, h1]
  have hmatch : IndexPy.fallback_matching jd_text resume_text
      = specMatched jd_text resume_text := by
    unfold IndexPy.fallback_matching specMatched IndexPy.fallback_skills
    rw [List.filter_filter]
    refine List.filter_congr ?_
    intro a ha
    rw [hmem a jd_text ha]
  have hmiss : IndexPy.fallback_missing jd_text resume_text
      = specMissing jd_text resume_text := by
    unfold IndexPy.fallback_missing specMissing IndexPy.fallback_skills
    rw [List.filter_filter]
    refine List.filter_congr ?_
    intro a ha
    rw [hmem a resume_text ha]
    exact Bool.and_comm _ _
  refine ⟨hmatch, hmiss, ?_⟩
  simp only [IndexPy.fallback, hmatch]
  rw [div_mul_eq_mul_div]

/-- C6: counterexample.  For a job description with three vocabulary
skills and a resume matching one, the code computes 33.33 (two-decimal
rounding), while the integer rounding of the claim gives 33. -/
theorem c6_counterexample :
    (IndexPy.fallback "Python Java AI" "Python").score = 3333/100
  ∧ pyRound ((1:ℚ) * 100 / (3:ℚ)) = 33
  ∧ ((3333:ℚ)/100) ≠ 33 := by
  refine ⟨?_, ?_, by norm_num⟩
  · have hm : IndexPy.fallback_matching "Python Java AI" "Python" = ["Python"] := by decide
    have hj : IndexPy.fallback_skills "Python Java AI" = ["Python", "Java", "AI"] := by decide
    simp only [IndexPy.fallback, hm, hj]
    norm_num [pyRound2, pyRound]
  · norm_num [pyRound]

/-- C7: amended.  evaluate.py and main.py reject a request with an
empty jd or resume with a 400 validation error whose value does not
depend on the external call; but the pydantic variants (index.py,
analyze.py, analyze-resume.py) only require the fields to be present
and proceed to the external call even for empty strings. -/
theorem c7_validation (jd resume : String) (svc : SvcResult)
    (h : jd = "" ∨ resume = "") :
    EvaluatePy.handler jd resume svc = HandlerResponse.err 400
  ∧ MainPy.evaluate jd resume svc = HandlerResponse.err 400 := by
  constructor
  · unfold EvaluatePy.handler
    rw [if_pos h]
  · unfold MainPy.evaluate
    rw [if_pos h]

/-- C7: witness for the amended theorem at an empty resume. -/
theorem c7_validation_witness :
    (("" : String) = "" ∨ ("x" : String) = "")
  ∧ (EvaluatePy.handler "x" "" SvcResult.failure = HandlerResponse.err 400
  ∧ MainPy.evaluate "x" "" SvcResult.failure = HandlerResponse.err 400) :=
  ⟨Or.inl rfl, c7_validation "x" "" SvcResult.failure (Or.inr rfl)⟩

/-- C7: counterexample.  With an empty jd, analyze-resume.py still
performs the external call and returns a normal successful result
built from the service reply, not a validation error. -/
theorem c7_counterexample :
    AnrPy.analyze_resume "" "x" (SvcResult.parsed [("Score", JValue.jnum 80)])
      = some [("Score", JValue.jnum 80), ("Recommendation", JValue.jstr "Reject")]
  ∧ IndexPy.isOk (IndexPy.analyze true "" "x" SvcResult.failure) = true :=
  ⟨rfl, rfl⟩

/-- C8: amended.  A missing Summary field is replaced by the empty
string in every variant (evaluate.py/main.py via parsed.get, index.py
via its field-fill loop, which also replaces an explicit null); but in
evaluate.py and main.py a null Summary is passed through as null, so
the returned summary is not always a string. -/
theorem c8_summary_normalization (obj : List (String × JValue)) :
    (jlookup obj "Summary" = none →
        EvaluatePy.summary_field obj = JValue.jstr "" ∧
        IndexPy.field obj "Summary" = JValue.jstr "")
  ∧ (jlookup obj "Summary" = some JValue.jnull →
        IndexPy.field obj "Summary" = JValue.jstr "") := by
  constructor
  · intro h
    exact ⟨by simp [EvaluatePy.summary_field, EvaluatePy.getField, h],
      by simp [IndexPy.field, h]⟩
  · intro h
    simp [IndexPy.field, h]

/-- C8: witness for the amended theorem at an object with no Summary
key. -/
theorem c8_summary_witness :
    jlookup [] "Summary" = none
  ∧ (EvaluatePy.summary_field [] = JValue.jstr ""
  ∧ IndexPy.field [] "Summary" = JValue.jstr "") :=
  ⟨rfl, (c8_summary_normalization []).1 rfl⟩

/-- C8: counterexample.  A service reply with a null Summary makes the
evaluate.py result carry a null summary, not a string. -/
theorem c8_counterexample :
    EvaluatePy.summary_field [("Summary", JValue.jnull)] = JValue.jnull
  ∧ JValue.jnull ≠ JValue.jstr "" :=
  ⟨rfl, fun h => JValue.noConfusion h⟩

/-- C9: amended.  Only index.py truncates the inputs (to 1000
characters each) before the external call; evaluate.py and main.py
interpolate the full, untruncated jd and resume into the prompt, whose
length grows with both inputs. -/
theorem c9_truncation (jd resume : String) :
    (IndexPy.gpt_args jd resume).1.length ≤ 1000
  ∧ (IndexPy.gpt_args jd resume).2.length ≤ 1000
  ∧ (evalPrompt jd resume).length =
      promptHeader.length + jd.length + promptMid.length + resume.length +
        promptTail.length := by
  refine ⟨?_, ?_, ?_⟩
  · calc (IndexPy.gpt_args jd resume).1.length
        = (jd.data.take 1000).length := rfl
      _ = min 1000 jd.data.length := List.length_take 1000 jd.data
      _ ≤ 1000 := Nat.min_le_left _ _
  · calc (IndexPy.gpt_args jd resume).2.length
        = (resume.data.take 1000).length := rfl
      _ = min 1000 resume.data.length := List.length_take 1000 resume.data
      _ ≤ 1000 := Nat.min_le_left _ _
  · simp [evalPrompt, String.length_append]

/-- A 2001-character job description of the letter a, above every bound
the claim allows. -/
def c9jdA : String := String.mk (List.replicate 2001 (Char.ofNat 97))

/-- A job description agreeing with c9jdA on the first 2000 characters
and differing at position 2000. -/
def c9jdB : String := String.mk (List.replicate 2000 (Char.ofNat 97) ++ [Char.ofNat 98])

/-- C9: counterexample.  Two job descriptions that agree on their first
2000 characters produce different evaluate.py prompts, so the prompt
depends on characters past any 1000-2000 truncation bound: the inputs
are not truncated before the prompt is built. -/
theorem c9_counterexample :
    c9jdA.data.take 2000 = c9jdB.data.take 2000
  ∧ c9jdA.data.length = 2001 ∧ c9jdB.data.length = 2001
  ∧ evalPrompt c9jdA "x" ≠ evalPrompt c9jdB "x" := by
  refine ⟨?_, ?_, ?_, ?_⟩
  · show (List.replicate 2001 (Char.ofNat 97)).take 2000 =
      ((List.replicate 2000 (Char.ofNat 97)) ++ [Char.ofNat 98]).take 2000
    rw [List.take_replicate, List.take_left' (List.length_replicate 2000 (Char.ofNat 97))]
    norm_num
  · show (List.replicate 2001 (Char.ofNat 97)).length = 2001
    rw [List.length_replicate]
  · show ((List.replicate 2000 (Char.ofNat 97)) ++ [Char.ofNat 98]).length = 2001
    rw [List.length_append, List.length_replicate]
    rfl
  · intro h
    have h2 := congrArg String.data h
    simp only [evalPrompt] at h2
    rw [String.data_append, String.data_append, String.data_append, String.data_append,
        String.data_append, String.data_append, String.data_append, String.data_append] at h2
    simp only [List.append_assoc] at h2
    have h3 := List.append_cancel_left h2
    have hlen : c9jdA.data.length = c9jdB.data.length := by
      show (List.replicate 2001 (Char.ofNat 97)).length =
        ((List.replicate 2000 (Char.ofNat 97)) ++ [Char.ofNat 98]).length
      rw [List.length_replicate, List.length_append, List.length_replicate]
      rfl
    have hd : c9jdA.data = c9jdB.data := List.append_inj_left h3 hlen
    have hb : (Char.ofNat 98) ∈ c9jdB.data :=
      List.mem_append.mpr (Or.inr (List.mem_singleton_self _))
    rw [← hd] at hb
    have h97 : (Char.ofNat 98) = (Char.ofNat 97) := List.eq_of_mem_replicate hb
    exact absurd h97 (by decide)

/-- The word class is contained in the bracket class of the pattern. -/
theorem charA_of_charW {c : Char} (h : charW c = true) : charA c = true := by
  simp [charA, h]

/-- takeWhile runs through a prefix all of whose members satisfy p. -/
theorem takeWhile_append_all (p : Char → Bool) :
    ∀ (u v : List Char), (∀ x ∈ u, p x = true) →
      (u ++ v).takeWhile p = u ++ v.takeWhile p
  | [], _, _ => by simp
  | c :: cs, v, h => by
    have hc : p c = true := h c (List.mem_cons_self _ _)
    simp [List.takeWhile_cons, hc,
      takeWhile_append_all p cs v (fun x hx => h x (List.mem_cons_of_mem _ hx))]

/-- takeWhile stops immediately on a failing head. -/
theorem takeWhile_nil_of_neg {p : Char → Bool} {c : Char} (h : p c = false)
    (l : List Char) : (c :: l).takeWhile p = [] := by
  simp [List.takeWhile_cons, h]

/-- The last element of a list of naturals is a member. -/
theorem getLast?_mem : ∀ {l : List Nat} {a : Nat}, l.getLast? = some a → a ∈ l
  | [], a, h => by simp at h
  | [x], a, h => by
    simp [List.getLast?] at h
    simp [h]
  | x :: y :: rest, a, h => by
    rw [List.getLast?_cons_cons] at h
    exact List.mem_cons_of_mem _ (getLast?_mem h)

/-- The greedy class run before an at-sign is exactly the class prefix,
because the at-sign is outside the class. -/
theorem takeWhile_eq_of_sandwich {a : List Char} (t : List Char)
    (hA : ∀ x ∈ a, charA x = true) :
    (a ++ '@' :: t).takeWhile charA = a := by
  rw [takeWhile_append_all charA a _ hA, takeWhile_nil_of_neg (by decide)]
  simp

/-- Soundness of the anchored matcher: a returned match is a full match
of the e-mail pattern and a prefix of the searched suffix. -/
theorem tryMatch_sound {s m : List Char} (h : tryMatch s = some m) :
    matchesEmail m ∧ m <+: s := by
  simp only [tryMatch] at h
  split at h
  · exact absurd h (by simp)
  · rename_i hae
    split at h
    · rename_i rest heq
      split at h
      · rename_i j hj
        rw [Option.some.injEq] at h
        -- abbreviations
        have hane : s.takeWhile charA ≠ [] := by
          intro hnil
          rw [hnil] at hae
          exact hae rfl
        have hs : s = s.takeWhile charA ++ '@' :: rest := by
          have htake : s.takeWhile charA = s.take (s.takeWhile charA).length :=
            List.prefix_iff_eq_take.mp (List.takeWhile_prefix charA)
          calc s = s.take (s.takeWhile charA).length ++ s.drop (s.takeWhile charA).length :=
                (List.take_append_drop _ _).symm
            _ = s.takeWhile charA ++ '@' :: rest := by rw [← htake, heq]
        -- facts about j
        have hjm := getLast?_mem hj
        rw [List.mem_filter] at hjm
        obtain ⟨hjr, hdok⟩ := hjm
        rw [List.mem_range] at hjr
        simp only [dotOK, Bool.and_eq_true, decide_eq_true_eq] at hdok
        obtain ⟨⟨hj1, hdot⟩, hw⟩ := hdok
        have hjlt : j < (rest.takeWhile charA).length := hjr
        have hj1lt : j + 1 < (rest.takeWhile charA).length := by
          by_contra hcon
          push_neg at hcon
          rw [List.getD_eq_getElem?_getD, List.getElem?_eq_none (by omega)] at hw
          simp at hw
          exact absurd hw (by decide)
        have hget : (rest.takeWhile charA)[j]? = some '.' := by
          rw [List.getD_eq_getElem?_getD, List.getElem?_eq_getElem hjlt] at hdot
          rw [List.getElem?_eq_getElem hjlt]
          simpa using congrArg some hdot
        have hget1 : charW ((rest.takeWhile charA)[j + 1]) = true := by
          rw [List.getD_eq_getElem?_getD, List.getElem?_eq_getElem hj1lt] at hw
          simpa using hw
        -- the match decomposition
        refine ⟨⟨s.takeWhile charA, (rest.takeWhile charA).take j,
          ((rest.takeWhile charA).drop (j + 1)).takeWhile charW, ?_, hane, ?_, ?_, ?_, ?_, ?_⟩, ?_⟩
        · rw [← h]
          congr 1
          congr 1
          rw [List.take_succ, hget]
          simp
        · -- b nonempty
          intro hnil
          have hlen := congrArg List.length hnil
          rw [List.length_take] at hlen
          simp only [List.length_nil] at hlen
          omega
        · -- c nonempty
          intro hnil
          rw [List.drop_eq_getElem_cons hj1lt, List.takeWhile_cons, if_pos hget1] at hnil
          exact List.cons_ne_nil _ _ hnil
        · exact fun x hx => List.mem_takeWhile_imp hx
        · exact fun x hx => List.mem_takeWhile_imp (List.mem_of_mem_take hx)
        · -- word chars of c
          exact fun x hx => List.mem_takeWhile_imp hx
        · -- prefix
          obtain ⟨u1, hu1⟩ := List.takeWhile_prefix (l := (rest.takeWhile charA).drop (j + 1)) charW
          obtain ⟨u2, hu2⟩ := List.takeWhile_prefix (l := rest) charA
          refine ⟨u1 ++ u2, ?_⟩
          rw [← h]
          conv_rhs => rw [hs]
          simp only [List.append_assoc, List.cons_append, List.append_cancel_left_eq,
            List.cons.injEq, true_and]
          calc (rest.takeWhile charA).take (j + 1) ++
                (((rest.takeWhile charA).drop (j + 1)).takeWhile charW ++ (u1 ++ u2))
              = (rest.takeWhile charA).take (j + 1) ++
                  ((((rest.takeWhile charA).drop (j + 1)).takeWhile charW ++ u1) ++ u2) := by
                rw [List.append_assoc]
            _ = (rest.takeWhile charA).take (j + 1) ++
                  ((rest.takeWhile charA).drop (j + 1) ++ u2) := by rw [hu1]
            _ = ((rest.takeWhile charA).take (j + 1) ++
                  (rest.takeWhile charA).drop (j + 1)) ++ u2 := (List.append_assoc _ _ _).symm
            _ = rest.takeWhile charA ++ u2 := by rw [List.take_append_drop]
            _ = rest := hu2
      · exact absurd h (by simp)
    · exact absurd h (by simp)

/-- A full pattern match is nonempty. -/
theorem matchesEmail_ne_nil {m : List Char} (hm : matchesEmail m) : m ≠ [] := by
  obtain ⟨a, b, c, hm_eq, ha, _, _, _, _, _⟩ := hm
  rw [hm_eq]
  cases a with
  | nil => simp
  | cons x xs => simp

/-- Completeness of the anchored matcher: when it fails, no prefix of
the searched suffix is a full match of the pattern. -/
theorem tryMatch_complete {s : List Char} (h : tryMatch s = none) {m : List Char}
    (hm : matchesEmail m) (hp : m <+: s) : False := by
  obtain ⟨a, b, c, hm_eq, ha, hb, hc, hA, hB, hC⟩ := hm
  obtain ⟨u, hu⟩ := hp
  rw [hm_eq] at hu
  have hs : s = a ++ '@' :: (b ++ '.' :: (c ++ u)) := by
    rw [← hu]
    simp [List.append_assoc]
  have hta : s.takeWhile charA = a := by
    rw [hs]
    exact takeWhile_eq_of_sandwich _ hA
  have hdrop : s.drop a.length = '@' :: (b ++ '.' :: (c ++ u)) := by
    conv_lhs => rw [hs]
    exact List.drop_left a _
  have hr : (b ++ '.' :: (c ++ u)).takeWhile charA =
      b ++ '.' :: (c ++ u.takeWhile charA) := by
    rw [takeWhile_append_all charA b _ hB]
    congr 1
    rw [List.takeWhile_cons, if_pos (by decide)]
    congr 1
    exact takeWhile_append_all charA c _ (fun x hx => charA_of_charW (hC x hx))
  -- the dot position b.length is a candidate
  have hj0 : dotOK ((b ++ '.' :: (c ++ u)).takeWhile charA) b.length = true := by
    rw [hr]
    simp only [dotOK, Bool.and_eq_true, decide_eq_true_eq]
    refine ⟨⟨?_, ?_⟩, ?_⟩
    · rcases b with _ | ⟨x, xs⟩
      · exact absurd rfl hb
      · simp
    · rw [List.getD_eq_getElem?_getD, List.getElem?_append_right (le_refl b.length)]
      simp
    · rcases c with _ | ⟨c0, cs⟩
      · exact absurd rfl hc
      · rw [List.getD_eq_getElem?_getD,
          List.getElem?_append_right (Nat.le_succ_of_le (le_refl b.length))]
        have : ('.' :: (c0 :: cs ++ u.takeWhile charA))[1]? = some c0 := by simp
        rw [show b.length + 1 - b.length = 1 from by omega, this]
        simpa using hC c0 (List.mem_cons_self _ _)
  have hmem : b.length ∈ (List.range ((b ++ '.' :: (c ++ u)).takeWhile charA).length).filter
      (dotOK ((b ++ '.' :: (c ++ u)).takeWhile charA)) := by
    refine List.mem_filter.mpr ⟨List.mem_range.mpr ?_, hj0⟩
    rw [hr, List.length_append]
    simp
  have hne : (List.range ((b ++ '.' :: (c ++ u)).takeWhile charA).length).filter
      (dotOK ((b ++ '.' :: (c ++ u)).takeWhile charA)) ≠ [] :=
    List.ne_nil_of_mem hmem
  -- now reduce tryMatch s and contradict h
  simp only [tryMatch] at h
  rw [hta] at h
  rw [if_neg (by simp [List.isEmpty_iff, ha])] at h
  rw [hdrop] at h
  split at h
  · rename_i rest heq2
    rw [List.cons.injEq] at heq2
    obtain ⟨-, hrest⟩ := heq2
    subst hrest
    rcases hgl : ((List.range ((b ++ '.' :: (c ++ u)).takeWhile charA).length).filter
        (dotOK ((b ++ '.' :: (c ++ u)).takeWhile charA))).getLast? with _ | j
    · exact hne (List.getLast?_eq_none_iff.mp hgl)
    · rw [hgl] at h
      exact absurd h (by simp)
  · rename_i hno
    exact hno _ rfl

/-- Soundness of the search: a returned match is a pattern match, found
at a position such that no earlier position carries any match - the
leftmost-match rule of re.search. -/
theorem searchEmail_sound : ∀ {l m : List Char}, searchEmail l = some m →
    matchesEmail m ∧ ∃ i, m <+: l.drop i ∧ ∀ k, k < i → ¬ emailMatchAt l k
  | [], m, h => by simp [searchEmail] at h
  | c :: cs, m, h => by
    simp only [searchEmail] at h
    split at h
    · rename_i m' htm
      rw [Option.some.injEq] at h
      subst h
      obtain ⟨hm, hp⟩ := tryMatch_sound htm
      exact ⟨hm, 0, hp, fun k hk => absurd hk (Nat.not_lt_zero k)⟩
    · rename_i htm
      obtain ⟨hm, i, hpre, hmin⟩ := searchEmail_sound h
      refine ⟨hm, i + 1, hpre, ?_⟩
      intro k hk
      cases k with
      | zero =>
        intro hmat
        obtain ⟨m2, hm2, hp2⟩ := hmat
        exact tryMatch_complete htm hm2 hp2
      | succ k2 =>
        exact hmin k2 (by omega)

/-- Completeness of the search: when it fails, no position of the text
carries a match. -/
theorem searchEmail_none : ∀ {l : List Char}, searchEmail l = none →
    ∀ i, ¬ emailMatchAt l i
  | [], _, i => by
    intro hmat
    obtain ⟨m2, hm2, hp2⟩ := hmat
    rw [List.drop_nil] at hp2
    exact matchesEmail_ne_nil hm2 (List.prefix_nil.mp hp2)
  | c :: cs, h, i => by
    simp only [searchEmail] at h
    split at h
    · exact absurd h (by simp)
    · rename_i htm
      cases i with
      | zero =>
        intro hmat
        obtain ⟨m2, hm2, hp2⟩ := hmat
        exact tryMatch_complete htm hm2 hp2
      | succ k =>
        exact searchEmail_none h k

/-- C10: confirmed.  extract_email never raises (the embedding is a
total function); its result is the empty string or an infix of the
input; it is empty exactly when no substring of the input matches the
e-mail pattern; and otherwise it is a pattern match located at the
leftmost position at which any match starts, the first match in the
sense of re.search. -/
theorem c10_extract_email (t : String) :
    (extract_email t = "" ∨ (extract_email t).data <:+: t.data)
  ∧ (extract_email t = "" → ∀ i, ¬ emailMatchAt t.data i)
  ∧ (extract_email t ≠ "" →
      matchesEmail (extract_email t).data
    ∧ ∃ i, (extract_email t).data <+: t.data.drop i
        ∧ ∀ k, k < i → ¬ emailMatchAt t.data k) := by
  rcases hse : searchEmail t.data with _ | m
  · have he : extract_email t = "" := by
      simp only [extract_email, hse]
    exact ⟨Or.inl he, fun _ => searchEmail_none hse, fun hne => absurd he hne⟩
  · have he : extract_email t = String.mk m := by
      simp only [extract_email, hse]
    obtain ⟨hm, i, hpre, hmin⟩ := searchEmail_sound hse
    have hdata : (extract_email t).data = m := by rw [he]
    have hne : extract_email t ≠ "" := by
      rw [he]
      intro hc
      exact matchesEmail_ne_nil hm (congrArg String.data hc)
    refine ⟨Or.inr ?_, fun hc => absurd hc hne,
      fun _ => ⟨hdata ▸ hm, i, hdata ▸ hpre, hmin⟩⟩
    rw [hdata]
    exact (List.IsPrefix.isInfix hpre).trans (List.IsSuffix.isInfix (List.drop_suffix i t.data))

/-- C10: witness evaluating extract_email on a concrete resume
fragment and instantiating the theorem there. -/
theorem c10_extract_email_witness :
    extract_email "reach me at jo.hn@mail.co!" = "jo.hn@mail.co"
  ∧ matchesEmail (extract_email "reach me at jo.hn@mail.co!").data := by
  have h1 : extract_email "reach me at jo.hn@mail.co!" = "jo.hn@mail.co" := by decide
  exact ⟨h1, ((c10_extract_email "reach me at jo.hn@mail.co!").2.2 (by rw [h1]; decide)).1⟩
